import Mathlib

/-!
Shallow embedding of the Bank_Transaction_System backend
(`backend/server.js`, `src/Database/db.js` = `src/unnamed/part_001`,
and the second entrypoint `src/unnamed/part_002`).

The code is bootstrap wiring: an Express application with JSON middleware,
one route `GET /` answering the literal string "Hi hi", a fire-and-forget
Mongoose connection attempt, and a TCP listener bind.  We embed:

* the HTTP request/response handling of the registered route table;
* `ConnectDB` from `src/Database/db.js`, with the Mongoose driver as an
  explicit oracle parameter (an external call whose outcome we quantify over);
* the observable startup-effect traces of the two entrypoint files;
* the configuration loader (`example.env.js`, referenced but not present in
  the sources), modelled from the spec.
-/

namespace BankBackend

/-- A process environment: maps a variable name to its value, `none` when the
variable is absent (JavaScript `undefined`). -/
abbrev Env := String → Option String

/-- The state of the Mongoose connection as the rest of the process could in
principle observe it: the attempt may still be in flight, succeeded, or failed. -/
inductive DbConnState where
  | pending : DbConnState
  | connected : DbConnState
  | failed (err : String) : DbConnState
deriving DecidableEq, Repr

/-- An incoming HTTP request: method, path, plus the parts the handlers never
look at (headers, query string, body). -/
structure Request where
  method : String
  path : String
  headers : List (String × String)
  query : String
  body : String
deriving DecidableEq, Repr

/-- An HTTP response: status code and body. -/
structure Response where
  status : Nat
  body : String
deriving DecidableEq, Repr

/-- Handler of the single registered route, from `app.get('/', (req, res) =>
res.send("Hi hi"))`.  Express's `res.send` with no prior `res.status` call
responds 200.  The handler closure could read the driver's connection state or
the request, but the source reads neither. -/
def rootHandler (_db : DbConnState) (_req : Request) : Response :=
  { status := 200, body := "Hi hi" }

/-- A registered Express route: method, path, handler. -/
structure Route where
  method : String
  path : String
  handler : DbConnState → Request → Response

/-- The route table both entrypoints register: exactly one route, `GET /`.
No catch-all route is registered. -/
def registeredRoutes : List Route :=
  [{ method := "GET", path := "/", handler := rootHandler }]

/-- Express's default behaviour for a request no registered route matches:
status 404 with the framework's "Cannot METHOD path" text. -/
def defaultNotFound (req : Request) : Response :=
  { status := 404, body := "Cannot " ++ req.method ++ " " ++ req.path }

/-- Methods Express advertises in its default OPTIONS response for a path:
the methods of the routes registered on that path, with HEAD added
automatically when a GET route exists. -/
def optionsAllow (path : String) : List String :=
  let ms := (registeredRoutes.filter (fun r => r.path == path)).map (fun r => r.method)
  if ms.contains "GET" then ms ++ ["HEAD"] else ms

/-- Express request dispatch over the registered route table: a route matches
when its path matches and its method matches, where a HEAD request also
matches a GET route (the router's HEAD→GET fallback); the first match handles
the request.  When no route matches, an OPTIONS request to a path that has at
least one registered route gets Express's default OPTIONS response — 200 with
the allowed methods; every other unmatched request gets the framework's
default not-found behaviour. -/
def dispatchRoute (db : DbConnState) (req : Request) : Response :=
  match registeredRoutes.find? (fun r =>
      r.path == req.path &&
      (r.method == req.method || (req.method == "HEAD" && r.method == "GET"))) with
  | some r => r.handler db req
  | none =>
      if req.method == "OPTIONS" && registeredRoutes.any (fun r => r.path == req.path) then
        { status := 200, body := String.intercalate "," (optionsAllow req.path) }
      else defaultNotFound req

/-- Full Express handling of a request: dispatch, then — for a HEAD request —
discard the response body (Express sends the headers only), keeping the
status. -/
def handleRequest (db : DbConnState) (req : Request) : Response :=
  if req.method == "HEAD" then
    { status := (dispatchRoute db req).status, body := "" }
  else dispatchRoute db req

/-- The Mongoose driver's `mongoose.connect`: an external operation taking the
connection string (possibly `undefined`) and either succeeding or rejecting
with an error description.  The embedding quantifies over it. -/
abbrev Driver := Option String → Except String Unit

/-- What one call to `ConnectDB` produces: how many times it invoked the
driver, the console lines it logged, and how the promise it returns settles
(`Except.ok ()` = fulfilled with `undefined`, `Except.error` = rejected). -/
structure ConnectResult where
  attempts : Nat
  logs : List String
  outcome : Except String Unit
deriving Repr

/-- `ConnectDB` from `src/Database/db.js`: one `mongoose.connect(database_uri)`
call inside try/catch; on success it logs the success line, on failure the
catch block logs the error description; in both branches the async function
returns normally, so the promise fulfills with `undefined`. -/
def ConnectDB (driver : Driver) (database_uri : Option String) : ConnectResult :=
  match driver database_uri with
  | Except.ok _ =>
      { attempts := 1
        logs := ["🙌  Server is successfully connected to databasse 🙌"]
        outcome := Except.ok () }
  | Except.error err =>
      { attempts := 1
        logs := ["❌ Problem in connecting to database ❌ " ++ err]
        outcome := Except.ok () }

/-- Modelled from the spec: the configuration loader `example.env.js` is
required by both entrypoints and by `db.js` but its source file is not in the
repository snapshot.  Per the spec it loads the environment via dotenv and
exposes two named values, `PORT` and `database_uri`, unchanged — no
validation, no defaults; an absent variable yields an undefined value. -/
structure Config where
  PORT : Option String
  database_uri : Option String
deriving DecidableEq, Repr

/-- Modelled from the spec: the environment-to-value mapping performed by
`example.env.js` — a straight read of the two variables, passed through
unchanged. -/
def loadConfig (env : Env) : Config :=
  { PORT := env "PORT", database_uri := env "database_uri" }

/-- A concrete environment in which only `PORT` is absent. -/
def envPortAbsent : Env :=
  fun v => if v = "database_uri" then some "mongodb://localhost:27017/Bank_Transaction_System" else none

/-- A concrete environment in which only `database_uri` is absent. -/
def envUriAbsent : Env :=
  fun v => if v = "PORT" then some "3000" else none

/-- An observable startup effect of an entrypoint. -/
inductive ProcEvent where
  | middlewareInstall (name : String) : ProcEvent
  | routeRegister (method : String) (path : String) : ProcEvent
  | connectAttempt (uri : Option String) : ProcEvent
  | listenBind (port : Option String) : ProcEvent
  | logLine (s : String) : ProcEvent
deriving DecidableEq, Repr

/-- Observable effect trace of the entrypoint `src/unnamed/part_002` (the
`server.js` variant that calls `ConnectDB`): install JSON middleware, register
`GET /`, invoke `ConnectDB()` without awaiting it, bind the listener on the
configured port.  The awaited driver call inside `ConnectDB` suspends, so its
console output lands after the synchronous bootstrap prefix. -/
def serverTrace_part002 (driver : Driver) (env : Env) : List ProcEvent :=
  ProcEvent.middlewareInstall "json" ::
  ProcEvent.routeRegister "GET" "/" ::
  ProcEvent.connectAttempt (loadConfig env).database_uri ::
  ProcEvent.listenBind (loadConfig env).PORT ::
  ((ConnectDB driver (loadConfig env).database_uri).logs.map ProcEvent.logLine)

/-- Observable effect trace of the entrypoint `backend/server.js`: install
JSON middleware, register `GET /`, bind the listener.  This file never
requires or calls `ConnectDB`. -/
def serverTrace_serverJs (env : Env) : List ProcEvent :=
  [ProcEvent.middlewareInstall "json",
   ProcEvent.routeRegister "GET" "/",
   ProcEvent.listenBind (loadConfig env).PORT]

/-- Modelled from the spec: the loader is "executed once, cached for the
process lifetime (no hot-reload)".  The environment may vary over process
lifetime; Node's module cache evaluates `example.env.js` once, at process
start (time 0). -/
def cachedConfig (envHistory : Nat → Env) : Config :=
  loadConfig (envHistory 0)

/-- Modelled from the spec: any later consultation of the configuration loader
returns the value cached at process start, never a re-read. -/
def consultConfig (envHistory : Nat → Env) (_t : Nat) : Config :=
  cachedConfig envHistory

/-- Shared evaluation lemma: a request with method GET and path `/` is matched
by the single registered route and answered by `rootHandler`. -/
theorem handleRequest_root (db : DbConnState) (req : Request)
    (hm : req.method = "GET") (hp : req.path = "/") :
    handleRequest db req = { status := 200, body := "Hi hi" } := by
  simp [handleRequest, dispatchRoute, registeredRoutes, List.find?, hm, hp, rootHandler]

/-- C1: every GET request to `/` is answered with status 200 and body exactly
"Hi hi", whatever the headers, query string, or body, and in every database
connection state. -/
theorem get_root_responds_hi_hi (db : DbConnState) (req : Request)
    (hm : req.method = "GET") (hp : req.path = "/") :
    handleRequest db req = { status := 200, body := "Hi hi" } :=
  handleRequest_root db req hm hp

/-- Witness for C1 at a concrete request carrying headers, a query string and
a body. -/
theorem get_root_responds_hi_hi_witness :
    handleRequest DbConnState.pending
      { method := "GET", path := "/", headers := [("X-Custom", "v")],
        query := "a=b", body := "ignored" } = { status := 200, body := "Hi hi" } :=
  get_root_responds_hi_hi DbConnState.pending
    { method := "GET", path := "/", headers := [("X-Custom", "v")],
      query := "a=b", body := "ignored" } rfl rfl

/-- C2: in the entrypoint with `ConnectDB` (`src/unnamed/part_002`), the
database connect is invoked before the listener bind, and the whole
synchronous bootstrap prefix — through the listener bind — is the same for
every driver outcome: the result is never awaited or inspected, and the bind
proceeds regardless of connection success or failure. -/
theorem connect_invoked_before_listen (driver : Driver) (env : Env) :
    (serverTrace_part002 driver env).take 4 =
      [ProcEvent.middlewareInstall "json", ProcEvent.routeRegister "GET" "/",
       ProcEvent.connectAttempt (loadConfig env).database_uri,
       ProcEvent.listenBind (loadConfig env).PORT] ∧
    ∀ d' : Driver, (serverTrace_part002 driver env).take 4 = (serverTrace_part002 d' env).take 4 :=
  ⟨rfl, fun _ => rfl⟩

/-- C3: whenever the driver connect call fails, `ConnectDB` logs the error
description, performs exactly one attempt (no retry), and returns normally:
its promise fulfills instead of rejecting, and nothing else is signalled. -/
theorem connectDB_failure_absorbed (driver : Driver) (uri : Option String) (err : String)
    (h : driver uri = Except.error err) :
    (ConnectDB driver uri).logs = ["❌ Problem in connecting to database ❌ " ++ err] ∧
    (ConnectDB driver uri).outcome = Except.ok () ∧
    (ConnectDB driver uri).attempts = 1 := by
  simp [ConnectDB, h]

/-- Witness for C3 at a concrete failing driver and connection string. -/
theorem connectDB_failure_absorbed_witness :
    (ConnectDB (fun _ => Except.error "ECONNREFUSED") (some "mongodb://unreachable")).logs
        = ["❌ Problem in connecting to database ❌ " ++ "ECONNREFUSED"] ∧
    (ConnectDB (fun _ => Except.error "ECONNREFUSED") (some "mongodb://unreachable")).outcome
        = Except.ok () ∧
    (ConnectDB (fun _ => Except.error "ECONNREFUSED") (some "mongodb://unreachable")).attempts = 1 :=
  connectDB_failure_absorbed (fun _ => Except.error "ECONNREFUSED")
    (some "mongodb://unreachable") "ECONNREFUSED" rfl

/-- C4: for every `database_uri` value — malformed, empty, or absent — and
every driver behaviour on it, `ConnectDB` returns normally (the error branch
absorbs any failure), and `GET /` is still served with 200 in every connection
state. -/
theorem bad_uri_no_crash (driver : Driver) (uri : Option String)
    (db : DbConnState) (req : Request)
    (hm : req.method = "GET") (hp : req.path = "/") :
    (ConnectDB driver uri).outcome = Except.ok () ∧
    handleRequest db req = { status := 200, body := "Hi hi" } := by
  refine ⟨?_, handleRequest_root db req hm hp⟩
  cases h : driver uri <;> simp [ConnectDB, h]

/-- Witness for C4: absent (`none`) connection string, a driver that rejects
it, a failed connection state, and a concrete GET / request. -/
theorem bad_uri_no_crash_witness :
    (ConnectDB (fun _ => Except.error "Invalid scheme") none).outcome = Except.ok () ∧
    handleRequest (DbConnState.failed "Invalid scheme")
      { method := "GET", path := "/", headers := [], query := "", body := "" }
      = { status := 200, body := "Hi hi" } :=
  bad_uri_no_crash (fun _ => Except.error "Invalid scheme") none
    (DbConnState.failed "Invalid scheme")
    { method := "GET", path := "/", headers := [], query := "", body := "" } rfl rfl

/-- C5 counterexample: the two entrypoint files do not define the same
sequence of observable startup effects — at a concrete environment and driver
their traces differ, because `backend/server.js` never attempts a database
connection while `src/unnamed/part_002` does. -/
theorem entrypoints_not_equivalent :
    serverTrace_part002 (fun _ => Except.ok ()) (fun _ => none) ≠
      serverTrace_serverJs (fun _ => none) := by
  decide

/-- C5 amended: both entrypoints install the JSON middleware, register
`GET /`, and bind the listener on the same configured port in the same order,
but only the entrypoint with `ConnectDB` performs a database connection
attempt; `backend/server.js` performs none. -/
theorem entrypoints_agree_except_connect (env : Env) (driver : Driver) :
    (serverTrace_part002 driver env).take 4 =
      [ProcEvent.middlewareInstall "json", ProcEvent.routeRegister "GET" "/",
       ProcEvent.connectAttempt (loadConfig env).database_uri,
       ProcEvent.listenBind (loadConfig env).PORT] ∧
    serverTrace_serverJs env =
      [ProcEvent.middlewareInstall "json", ProcEvent.routeRegister "GET" "/",
       ProcEvent.listenBind (loadConfig env).PORT] ∧
    ∀ uri, ProcEvent.connectAttempt uri ∉ serverTrace_serverJs env := by
  refine ⟨rfl, rfl, fun uri h => ?_⟩
  simp [serverTrace_serverJs] at h

/-- C6: whenever `PORT` is absent from the environment, and independently
whenever `database_uri` is, the configuration loader yields an undefined value
for that variable and passes it through unchanged to its consumer — the
listener bind for `PORT`, the driver connect for `database_uri` — with no
validation, no default, no error. -/
theorem absent_env_passes_through (env : Env) (driver : Driver) :
    (env "PORT" = none →
      (loadConfig env).PORT = none ∧
      (serverTrace_part002 driver env).get? 3 = some (ProcEvent.listenBind none)) ∧
    (env "database_uri" = none →
      (loadConfig env).database_uri = none ∧
      (serverTrace_part002 driver env).get? 2 = some (ProcEvent.connectAttempt none)) := by
  constructor
  · intro hP
    refine ⟨?_, ?_⟩ <;> simp [loadConfig, serverTrace_part002, hP]
  · intro hD
    refine ⟨?_, ?_⟩ <;> simp [loadConfig, serverTrace_part002, hD]

/-- Witness for C6: one environment in which only `PORT` is absent, another in
which only `database_uri` is. -/
theorem absent_env_passes_through_witness :
    ((loadConfig envPortAbsent).PORT = none ∧
      (serverTrace_part002 (fun _ => Except.ok ()) envPortAbsent).get? 3
        = some (ProcEvent.listenBind none)) ∧
    ((loadConfig envUriAbsent).database_uri = none ∧
      (serverTrace_part002 (fun _ => Except.ok ()) envUriAbsent).get? 2
        = some (ProcEvent.connectAttempt none)) :=
  ⟨(absent_env_passes_through envPortAbsent (fun _ => Except.ok ())).1 (by decide),
   (absent_env_passes_through envUriAbsent (fun _ => Except.ok ())).2 (by decide)⟩

/-- C7 counterexample: a HEAD request to `/` — a method-and-path pair that is
not GET `/` — is answered with status 200 by the program, through Express's
HEAD→GET fallback, not with 404 as the claim states. -/
theorem unmatched_request_404_counterexample :
    ¬(("HEAD" : String) = "GET" ∧ ("/" : String) = "/") ∧
    (handleRequest DbConnState.pending
      { method := "HEAD", path := "/", headers := [], query := "", body := "" }).status
      = 200 := by
  decide

/-- C7 amended: every request other than GET `/`, HEAD `/` (served by the GET
route via Express's HEAD→GET fallback), and OPTIONS `/` (answered by Express's
default OPTIONS response) gets the framework's default not-found behaviour
with status 404, since `GET /` is the only registered route and no catch-all
route exists. -/
theorem unmatched_request_404_amended (db : DbConnState) (req : Request)
    (h : req.path ≠ "/" ∨
      (req.method ≠ "GET" ∧ req.method ≠ "HEAD" ∧ req.method ≠ "OPTIONS")) :
    (handleRequest db req).status = 404 := by
  rcases h with hp | ⟨h1, h2, h3⟩
  · simp [handleRequest, dispatchRoute, registeredRoutes, List.find?, List.any,
      defaultNotFound, apply_ite Response.status,
      beq_eq_false_iff_ne.mpr (Ne.symm hp)]
  · simp [handleRequest, dispatchRoute, registeredRoutes, List.find?, List.any,
      defaultNotFound, beq_eq_false_iff_ne.mpr (Ne.symm h1),
      beq_eq_false_iff_ne.mpr h2, beq_eq_false_iff_ne.mpr h3]

/-- Witness for the amended C7 at a concrete POST request to an unregistered
path. -/
theorem unmatched_request_404_amended_witness :
    (("/transfer" : String) ≠ "/" ∨
      (("POST" : String) ≠ "GET" ∧ ("POST" : String) ≠ "HEAD" ∧
        ("POST" : String) ≠ "OPTIONS")) ∧
    (handleRequest DbConnState.connected
      { method := "POST", path := "/transfer", headers := [], query := "", body := "" }).status
      = 404 :=
  ⟨Or.inl (by decide),
   unmatched_request_404_amended DbConnState.connected
     { method := "POST", path := "/transfer", headers := [], query := "", body := "" }
     (Or.inl (by decide))⟩

/-- C8: the configuration is read from the environment exactly once at process
start; every later consultation, at any time, returns that same cached value
even if the environment has changed since — no re-read, no hot-reload. -/
theorem config_cached_for_lifetime (envHistory : Nat → Env) (t t' : Nat) :
    consultConfig envHistory t = consultConfig envHistory t' ∧
    consultConfig envHistory t = loadConfig (envHistory 0) :=
  ⟨rfl, rfl⟩

/-- C9: the promise returned by `ConnectDB` always resolves and never rejects:
for every driver behaviour and every connection string, the try/catch makes
the returned promise fulfill with `undefined`. -/
theorem connectDB_promise_always_resolves (driver : Driver) (uri : Option String) :
    (ConnectDB driver uri).outcome = Except.ok () := by
  cases h : driver uri <;> simp [ConnectDB, h]

/-- C10: the `GET /` handler is deterministic and non-interfering with respect
to database state: any two GET / requests, under any two connection states,
receive the identical response — status 200, body "Hi hi". -/
theorem get_root_noninterference (db₁ db₂ : DbConnState) (req₁ req₂ : Request)
    (hm₁ : req₁.method = "GET") (hp₁ : req₁.path = "/")
    (hm₂ : req₂.method = "GET") (hp₂ : req₂.path = "/") :
    handleRequest db₁ req₁ = handleRequest db₂ req₂ ∧
    handleRequest db₁ req₁ = { status := 200, body := "Hi hi" } := by
  rw [handleRequest_root db₁ req₁ hm₁ hp₁, handleRequest_root db₂ req₂ hm₂ hp₂]
  exact ⟨rfl, rfl⟩

/-- Witness for C10: two distinct requests in distinct connection states. -/
theorem get_root_noninterference_witness :
    handleRequest DbConnState.pending
        { method := "GET", path := "/", headers := [("A", "1")], query := "x=1", body := "" }
      = handleRequest (DbConnState.failed "down")
        { method := "GET", path := "/", headers := [], query := "", body := "b" } ∧
    handleRequest DbConnState.pending
        { method := "GET", path := "/", headers := [("A", "1")], query := "x=1", body := "" }
      = { status := 200, body := "Hi hi" } :=
  get_root_noninterference DbConnState.pending (DbConnState.failed "down")
    { method := "GET", path := "/", headers := [("A", "1")], query := "x=1", body := "" }
    { method := "GET", path := "/", headers := [], query := "", body := "b" }
    rfl rfl rfl rfl

end BankBackend
